import Mathlib

/-!
Shallow embedding of `src/stock_api.py` (bennu-inventory-counter), a small
HTTP backend that appends inventory count rows to a remote spreadsheet and
reads an item list from it.

Modelling choices:
* Environment variables (`os.getenv`) are `Option String`; Python truthiness
  of such a value (`if SHEET_ID:`) is `truthy`: `some s` with `s ≠ ""`.
* External library calls (JSON credential parsing, filesystem existence,
  the remote Sheets read/append) are oracles carried in `CredEnv` / `Remote`;
  their observable outcomes (success / failure, returned rows) are what the
  endpoints branch on.
* Python `str.strip()` used only as a blank test is modelled by `String.trim`.
* The numeric `qty` field (a Python float passed through untouched, never
  computed with) is modelled as `ℚ`.
* `HTTPException(status_code, detail)` is `HttpError`; an endpoint body that
  either raises or returns is `Except HttpError α`.
* `submit_count` additionally records which side effects were attempted
  (`credAttempted`, `appendCalls`) so that "no remote append call is made"
  style claims are statable.
-/

namespace StockApi

/-- A cell value appended to the spreadsheet: the six text fields and the
server-computed date are strings, `qty` is passed through as a number. -/
inductive Cell where
  | str (s : String)
  | num (q : ℚ)
deriving DecidableEq, Repr

/-- Process-wide configuration read from environment variables at startup
(`SHEET_ID`, `SERVICE_ACCOUNT_JSON`, `SERVICE_ACCOUNT_FILE`, `SHARED_PIN`).
`none` models an unset variable. -/
structure Config where
  SHEET_ID : Option String
  SERVICE_ACCOUNT_JSON : Option String
  SERVICE_FILE : Option String
  SHARED_PIN : Option String
deriving DecidableEq, Repr

/-- Python truthiness of an optional environment string: `None` and `""` are
falsy, any other string is truthy. -/
def truthy : Option String → Bool
  | some s => s ≠ ""
  | none => false

/-- Fixed constant: target tab name. -/
def TAB_NAME : String := "Input_Counts"

/-- Fixed constant: the item list source range. -/
def ITEM_MASTER_RANGE : String := "Item_Master!B2:B"

/-- Oracles for the external effects consulted by `get_sheets_service`, each
failure-producing call yielding the error text it raises with (`none` means
the call succeeds): `json.loads` + `from_service_account_info` on the inline
credential text, path existence on disk,
`from_service_account_file` on an existing key-file path (which raises on an
existing but malformed credential file), `build("sheets", "v4", ...)`, and
`os.path.dirname(__file__)`. -/
structure CredEnv where
  jsonLoadErr : String → Option String
  fileExists : String → Bool
  fileLoadErr : String → Option String
  buildErr : Option String
  dirname : String

/-- `os.path.isabs` (POSIX). -/
def isAbs (p : String) : Bool := p.startsWith "/"

/-- The resolved service-account file path: the configured path itself when
absolute, else joined onto the directory containing the source file. -/
def saPath (env : CredEnv) (f : String) : String :=
  if isAbs f then f else env.dirname ++ "/" ++ f

/-- Embedding of `get_sheets_service` (src/stock_api.py:51-87): check
`SHEET_ID`, then prefer the inline JSON credential (its load failure is
wrapped in a `RuntimeError` message), fall back to the key file (a missing
file is a `RuntimeError`; loading an existing but malformed file raises and
propagates unwrapped), and fail when neither source is configured; finally
`build(...)`, whose failure also propagates unwrapped. The successful handle
is modelled as `Unit`. -/
def get_sheets_service (cfg : Config) (env : CredEnv) : Except String Unit :=
  if ¬ truthy cfg.SHEET_ID then
    .error "SHEET_ID env var is not set"
  else if truthy cfg.SERVICE_ACCOUNT_JSON then
    match env.jsonLoadErr (cfg.SERVICE_ACCOUNT_JSON.getD "") with
    | some e => .error ("Failed to load SERVICE_ACCOUNT_JSON: " ++ e)
    | none =>
      match env.buildErr with
      | some e => .error e
      | none => .ok ()
  else if truthy cfg.SERVICE_FILE then
    if env.fileExists (saPath env (cfg.SERVICE_FILE.getD "")) then
      match env.fileLoadErr (saPath env (cfg.SERVICE_FILE.getD "")) with
      | some e => .error e
      | none =>
        match env.buildErr with
        | some e => .error e
        | none => .ok ()
    else
      .error ("Service account file not found: "
        ++ saPath env (cfg.SERVICE_FILE.getD ""))
  else
    .error "No service account credentials configured."

/-- One `spreadsheets().values().append(...)` invocation with its arguments. -/
structure AppendCall where
  spreadsheetId : Option String
  range : String
  valueInputOption : String
  values : List (List Cell)
deriving DecidableEq, Repr

/-- Oracles for the remote spreadsheet service: the outcome of a range read
(`values.get(...).execute()` followed by `resp.get("values", [])`) and of an
append. -/
structure Remote where
  readRange : Option String → String → Except String (List (List String))
  appendRow : AppendCall → Except String Unit

/-- The `/items` response body. -/
structure ItemsResponse where
  items : List String
deriving DecidableEq, Repr

/-- Python `str.strip()` on the underlying character list: drop whitespace
from the front and from the back. -/
def stripChars (l : List Char) : List Char :=
  ((l.dropWhile Char.isWhitespace).reverse.dropWhile Char.isWhitespace).reverse

/-- Python `str.strip()` (no argument): remove leading and trailing
whitespace. -/
def pyStrip (s : String) : String := ⟨stripChars s.data⟩

/-- Embedding of `get_items` (src/stock_api.py:106-122): resolve the service,
read `ITEM_MASTER_RANGE`, keep `row[0]` for every row that is non-empty and
whose first cell is not blank; on any exception return `{"items": []}`. -/
def get_items (cfg : Config) (env : CredEnv) (remote : Remote) : ItemsResponse :=
  match get_sheets_service cfg env with
  | .error _ => ⟨[]⟩
  | .ok _ =>
    match remote.readRange cfg.SHEET_ID ITEM_MASTER_RANGE with
    | .error _ => ⟨[]⟩
    | .ok values =>
      ⟨values.filterMap fun row =>
        match row with
        | [] => none
        | c :: _ => if pyStrip c = "" then none else some c⟩

/-- The validated `/submit_count` request body (`CountPayload`): six fields,
no date field. -/
structure CountPayload where
  counter_name : String
  store_name : String
  sub_location : String
  item_name : String
  condition : String
  qty : ℚ
deriving DecidableEq, Repr

/-- An `HTTPException`: status code and detail message. -/
structure HttpError where
  status_code : Nat
  detail : String
deriving DecidableEq, Repr

/-- The `/submit_count` success body: `{"status": "ok", "received": payload}`. -/
structure SubmitOk where
  status : String
  received : CountPayload
deriving DecidableEq, Repr

instance {ε α : Type _} [DecidableEq ε] [DecidableEq α] :
    DecidableEq (Except ε α) := fun a b =>
  match a, b with
  | .error e, .error e' => decidable_of_iff (e = e') (by simp)
  | .error _, .ok _ => isFalse (by simp)
  | .ok _, .error _ => isFalse (by simp)
  | .ok x, .ok y => decidable_of_iff (x = y) (by simp)

/-- The observable outcome of one `/submit_count` request: the HTTP result,
whether credential resolution was attempted, and the append calls issued. -/
structure SubmitTrace where
  result : Except HttpError SubmitOk
  credAttempted : Bool
  appendCalls : List AppendCall
deriving DecidableEq, Repr

/-- The single append call `submit_count` issues (src/stock_api.py:144-162):
row `[counter_name, store_name, sub_location, today, item_name, condition,
qty]` to `Input_Counts!A:G` with `USER_ENTERED` semantics. -/
def appendCallOf (cfg : Config) (payload : CountPayload) (today : String) :
    AppendCall :=
  { spreadsheetId := cfg.SHEET_ID
    range := TAB_NAME ++ "!A:G"
    valueInputOption := "USER_ENTERED"
    values := [[.str payload.counter_name, .str payload.store_name,
      .str payload.sub_location, .str today, .str payload.item_name,
      .str payload.condition, .num payload.qty]] }

/-- Embedding of `submit_count` (src/stock_api.py:125-166). `x_shared_pin` is
the optional `X-Shared-Pin` header (default `None`); `today` is the
server-computed `date.today().isoformat()` string. -/
def submit_count (cfg : Config) (env : CredEnv) (remote : Remote)
    (payload : CountPayload) (x_shared_pin : Option String) (today : String) :
    SubmitTrace :=
  if truthy cfg.SHARED_PIN ∧ x_shared_pin ≠ cfg.SHARED_PIN then
    ⟨.error ⟨401, "Invalid PIN"⟩, false, []⟩
  else
    match get_sheets_service cfg env with
    | .error e => ⟨.error ⟨500, "Config error: " ++ e⟩, true, []⟩
    | .ok _ =>
      let call := appendCallOf cfg payload today
      match remote.appendRow call with
      | .error e => ⟨.error ⟨500, "Sheets append failed: " ++ e⟩, true, [call]⟩
      | .ok _ => ⟨.ok ⟨"ok", payload⟩, true, [call]⟩

/-- The `/health` response body. -/
structure HealthResponse where
  status : String
deriving DecidableEq, Repr

/-- Embedding of `health` (src/stock_api.py:99-102). It reads no
configuration and touches no remote service; the parameters record that the
process state is available yet unused. -/
def health (_cfg : Config) (_env : CredEnv) (_remote : Remote) : HealthResponse :=
  ⟨"running"⟩

/-! Concrete fixtures used by witnesses. -/

/-- A configuration with every credential source set and no PIN. -/
def cfgOK : Config :=
  ⟨some "sheet1", some "credjson", none, none⟩

/-- A credential environment where every external call succeeds and every
file exists. -/
def credOK : CredEnv :=
  ⟨fun _ => none, fun _ => true, fun _ => none, none, "/app"⟩

/-- A configuration with only the key-file credential source set. -/
def cfgFileOnly : Config :=
  ⟨some "sheet1", none, some "/etc/sa.json", none⟩

/-- A credential environment where the key file exists but loading it raises
(an existing but malformed credential file). -/
def credBadFile : CredEnv :=
  ⟨fun _ => none, fun _ => true, fun _ => some "Invalid key file", none, "/app"⟩

/-- A credential environment where credentials load fine but `build(...)`
raises. -/
def credBadBuild : CredEnv :=
  ⟨fun _ => none, fun _ => true, fun _ => none, some "build failed", "/app"⟩

/-- A remote stub whose read returns the given rows and whose append succeeds. -/
def remoteOk (rows : List (List String)) : Remote :=
  ⟨fun _ _ => .ok rows, fun _ => .ok ()⟩

/-- A remote stub whose read always raises. -/
def remoteReadFail : Remote :=
  ⟨fun _ _ => .error "boom", fun _ => .ok ()⟩

/-- A remote stub whose append always raises. -/
def remoteAppendFail : Remote :=
  ⟨fun _ _ => .ok [], fun _ => .error "quota exceeded"⟩

/-! Helper lemmas shared by the claim theorems. -/

/-- Any request with a configured non-empty PIN and a header that is not
exactly that PIN is rejected before any side effect. -/
theorem pin_reject_aux (cfg : Config) (env : CredEnv) (remote : Remote)
    (payload : CountPayload) (p : String) (header : Option String)
    (today : String) (hp : cfg.SHARED_PIN = some p) (hne : p ≠ "")
    (hmis : header ≠ some p) :
    submit_count cfg env remote payload header today =
      ⟨.error ⟨401, "Invalid PIN"⟩, false, []⟩ := by
  have h1 : truthy cfg.SHARED_PIN = true := by
    rw [hp]; simpa [truthy] using hne
  have h2 : header ≠ cfg.SHARED_PIN := by rw [hp]; exact hmis
  unfold submit_count
  rw [if_pos ⟨h1, h2⟩]

/-- The untrimmed-head filter of `get_items`, re-expressed as a filter of the
non-blank rows followed by taking each first cell. -/
theorem filterMap_head_eq (rows : List (List String)) :
    (rows.filterMap fun row =>
      match row with
      | [] => none
      | c :: _ => if pyStrip c = "" then none else some c) =
    ((rows.filter fun row =>
        decide (row ≠ []) && decide (pyStrip (row.headD "") ≠ "")).map
      fun row => row.headD "") := by
  induction rows with
  | nil => rfl
  | cons r rs ih =>
    cases r with
    | nil => simpa using ih
    | cons c cs =>
      by_cases hc : pyStrip c = "" <;>
        simp [List.filterMap_cons, List.filter_cons, hc, ih]

/-! Claim theorems. -/

/-- C1: when a shared secret is configured (non-empty) and the supplied
`X-Shared-Pin` header is not exactly equal to it, `/submit_count` fails with
HTTP 401 detail "Invalid PIN", credential resolution is not attempted, and no
remote append call is issued. -/
theorem submit_count_pin_mismatch_401 (cfg : Config) (env : CredEnv)
    (remote : Remote) (payload : CountPayload) (p : String)
    (header : Option String) (today : String) (hp : cfg.SHARED_PIN = some p)
    (hne : p ≠ "") (hmis : header ≠ some p) :
    submit_count cfg env remote payload header today =
      ⟨.error ⟨401, "Invalid PIN"⟩, false, []⟩ :=
  pin_reject_aux cfg env remote payload p header today hp hne hmis

theorem submit_count_pin_mismatch_401_witness :
    submit_count ⟨some "sheet1", some "credjson", none, some "1234"⟩ credOK
      (remoteOk []) ⟨"A", "B", "C", "D", "E", (1 : ℚ)⟩ (some "9999")
      "2024-01-15" = ⟨.error ⟨401, "Invalid PIN"⟩, false, []⟩ :=
  submit_count_pin_mismatch_401 ⟨some "sheet1", some "credjson", none,
    some "1234"⟩ credOK (remoteOk []) ⟨"A", "B", "C", "D", "E", (1 : ℚ)⟩
    "1234" (some "9999") "2024-01-15" rfl (by decide) (by decide)

/-- C7: when no shared secret is configured (unset or empty), `/submit_count`
performs no authorization check: its outcome does not depend on the
`X-Shared-Pin` header at all, and with working credentials and a working
append it succeeds. -/
theorem submit_count_open_access (cfg : Config) (env : CredEnv)
    (remote : Remote) (payload : CountPayload) (h1 h2 : Option String)
    (today : String) (hpin : ¬ truthy cfg.SHARED_PIN) :
    submit_count cfg env remote payload h1 today =
      submit_count cfg env remote payload h2 today ∧
    (get_sheets_service cfg env = .ok () →
      remote.appendRow (appendCallOf cfg payload today) = .ok () →
      (submit_count cfg env remote payload h1 today).result =
        .ok ⟨"ok", payload⟩) := by
  have hno : ∀ h : Option String,
      ¬ (truthy cfg.SHARED_PIN = true ∧ h ≠ cfg.SHARED_PIN) :=
    fun h hc => hpin hc.1
  constructor
  · unfold submit_count
    rw [if_neg (hno h1), if_neg (hno h2)]
  · intro hsvc happ
    unfold submit_count
    rw [if_neg (hno h1), hsvc]
    dsimp only
    rw [happ]

theorem submit_count_open_access_witness :
    (submit_count cfgOK credOK (remoteOk []) ⟨"A", "B", "C", "D", "E", (2 : ℚ)⟩
        (some "anything") "2024-01-15" =
      submit_count cfgOK credOK (remoteOk []) ⟨"A", "B", "C", "D", "E", (2 : ℚ)⟩
        none "2024-01-15") ∧
    (submit_count cfgOK credOK (remoteOk []) ⟨"A", "B", "C", "D", "E", (2 : ℚ)⟩
        (some "anything") "2024-01-15").result =
      .ok ⟨"ok", ⟨"A", "B", "C", "D", "E", (2 : ℚ)⟩⟩ := by
  have h := submit_count_open_access cfgOK credOK (remoteOk [])
    ⟨"A", "B", "C", "D", "E", (2 : ℚ)⟩ (some "anything") none "2024-01-15"
    (by decide)
  exact ⟨h.1, h.2 rfl rfl⟩

/-- C9: `/health` always returns `{"status": "running"}`, independent of the
configuration and of the remote service. -/
theorem health_constant (cfg : Config) (env : CredEnv) (remote : Remote) :
    health cfg env remote = ⟨"running"⟩ := rfl

/-- C10: a `SHARED_PIN` configured as the empty string disables the
authorization check — `/submit_count` behaves exactly as with no configured
secret — while a non-empty secret rejects an absent `X-Shared-Pin` header
with 401 "Invalid PIN", just like a mismatching value. -/
theorem submit_count_empty_pin (cfg : Config) (env : CredEnv) (remote : Remote)
    (payload : CountPayload) (header : Option String) (today : String) :
    (cfg.SHARED_PIN = some "" →
      submit_count cfg env remote payload header today =
        submit_count { cfg with SHARED_PIN := none } env remote payload
          header today) ∧
    (∀ p, cfg.SHARED_PIN = some p → p ≠ "" →
      submit_count cfg env remote payload none today =
        ⟨.error ⟨401, "Invalid PIN"⟩, false, []⟩) := by
  constructor
  · intro h
    obtain ⟨sid, sj, sf, sp⟩ := cfg
    replace h : sp = some "" := h
    subst h
    unfold submit_count
    rw [if_neg (by simp [truthy]), if_neg (by simp [truthy])]
    rfl
  · intro p hp hne
    exact pin_reject_aux cfg env remote payload p none today hp hne
      (by simp)

theorem submit_count_empty_pin_witness :
    (submit_count ⟨some "sheet1", some "credjson", none, some ""⟩ credOK
        (remoteOk []) ⟨"A", "B", "C", "D", "E", (2 : ℚ)⟩ (some "whatever")
        "2024-01-15" =
      submit_count ⟨some "sheet1", some "credjson", none, none⟩ credOK
        (remoteOk []) ⟨"A", "B", "C", "D", "E", (2 : ℚ)⟩ (some "whatever")
        "2024-01-15") ∧
    submit_count ⟨some "sheet1", some "credjson", none, some "1234"⟩ credOK
      (remoteOk []) ⟨"A", "B", "C", "D", "E", (2 : ℚ)⟩ none "2024-01-15" =
      ⟨.error ⟨401, "Invalid PIN"⟩, false, []⟩ :=
  ⟨(submit_count_empty_pin ⟨some "sheet1", some "credjson", none, some ""⟩
      credOK (remoteOk []) ⟨"A", "B", "C", "D", "E", (2 : ℚ)⟩
      (some "whatever") "2024-01-15").1 rfl,
   (submit_count_empty_pin ⟨some "sheet1", some "credjson", none, some "1234"⟩
      credOK (remoteOk []) ⟨"A", "B", "C", "D", "E", (2 : ℚ)⟩ none
      "2024-01-15").2 "1234" rfl (by decide)⟩

/-- C2: once the PIN gate passes and credentials resolve, `/submit_count`
issues exactly one append call, targeting `Input_Counts!A:G` with
`USER_ENTERED` semantics, whose single row is
`[counter_name, store_name, sub_location, today, item_name, condition, qty]`
with the date supplied server-side (`CountPayload` carries no date field). -/
theorem submit_count_row_assembly (cfg : Config) (env : CredEnv)
    (remote : Remote) (payload : CountPayload) (header : Option String)
    (today : String)
    (hpin : ¬ (truthy cfg.SHARED_PIN = true ∧ header ≠ cfg.SHARED_PIN))
    (hsvc : get_sheets_service cfg env = .ok ()) :
    (submit_count cfg env remote payload header today).appendCalls =
      [{ spreadsheetId := cfg.SHEET_ID
         range := "Input_Counts!A:G"
         valueInputOption := "USER_ENTERED"
         values := [[.str payload.counter_name, .str payload.store_name,
           .str payload.sub_location, .str today, .str payload.item_name,
           .str payload.condition, .num payload.qty]] }] := by
  unfold submit_count
  rw [if_neg hpin, hsvc]
  dsimp only
  cases hr : remote.appendRow (appendCallOf cfg payload today) <;> rfl

theorem submit_count_row_assembly_witness :
    (submit_count cfgOK credOK (remoteOk [])
        ⟨"A", "B", "C", "D", "E", (3.5 : ℚ)⟩ none "2024-01-15").appendCalls =
      [{ spreadsheetId := some "sheet1"
         range := "Input_Counts!A:G"
         valueInputOption := "USER_ENTERED"
         values := [[.str "A", .str "B", .str "C", .str "2024-01-15",
           .str "D", .str "E", .num (3.5 : ℚ)]] }] :=
  submit_count_row_assembly cfgOK credOK (remoteOk [])
    ⟨"A", "B", "C", "D", "E", (3.5 : ℚ)⟩ none "2024-01-15" (by decide) rfl

/-- C6: with the PIN gate passed, a credential-resolution failure makes
`/submit_count` fail with HTTP 500 whose detail embeds the underlying
configuration error text, and an append failure makes it fail with HTTP 500
embedding the underlying error text; neither failure yields a success result. -/
theorem submit_count_error_propagation (cfg : Config) (env : CredEnv)
    (remote : Remote) (payload : CountPayload) (header : Option String)
    (today : String) (e : String)
    (hpin : ¬ (truthy cfg.SHARED_PIN = true ∧ header ≠ cfg.SHARED_PIN)) :
    (get_sheets_service cfg env = .error e →
      (submit_count cfg env remote payload header today).result =
        .error ⟨500, "Config error: " ++ e⟩) ∧
    (get_sheets_service cfg env = .ok () →
      remote.appendRow (appendCallOf cfg payload today) = .error e →
      (submit_count cfg env remote payload header today).result =
        .error ⟨500, "Sheets append failed: " ++ e⟩) := by
  constructor
  · intro hsvc
    unfold submit_count
    rw [if_neg hpin, hsvc]
  · intro hsvc happ
    unfold submit_count
    rw [if_neg hpin, hsvc]
    dsimp only
    rw [happ]

theorem submit_count_error_propagation_witness :
    (submit_count ⟨none, none, none, none⟩ credOK (remoteOk [])
        ⟨"A", "B", "C", "D", "E", (1 : ℚ)⟩ none "2024-01-15").result =
      .error ⟨500, "Config error: SHEET_ID env var is not set"⟩ ∧
    (submit_count cfgOK credOK remoteAppendFail
        ⟨"A", "B", "C", "D", "E", (1 : ℚ)⟩ none "2024-01-15").result =
      .error ⟨500, "Sheets append failed: quota exceeded"⟩ :=
  ⟨(submit_count_error_propagation ⟨none, none, none, none⟩ credOK
      (remoteOk []) ⟨"A", "B", "C", "D", "E", (1 : ℚ)⟩ none "2024-01-15"
      "SHEET_ID env var is not set" (by decide)).1 rfl,
   (submit_count_error_propagation cfgOK credOK remoteAppendFail
      ⟨"A", "B", "C", "D", "E", (1 : ℚ)⟩ none "2024-01-15"
      "quota exceeded" (by decide)).2 rfl rfl⟩

/-- C8: whenever `/submit_count` returns a success body, that body is exactly
`{"status": "ok", "received": payload}` — the validated six-field submission
echoed back unchanged. -/
theorem submit_count_success_echo (cfg : Config) (env : CredEnv)
    (remote : Remote) (payload : CountPayload) (header : Option String)
    (today : String) (r : SubmitOk)
    (h : (submit_count cfg env remote payload header today).result = .ok r) :
    r = ⟨"ok", payload⟩ := by
  unfold submit_count at h
  split at h
  · exact absurd h (by simp)
  · dsimp only at h
    split at h
    · exact absurd h (by simp)
    · split at h
      · exact absurd h (by simp)
      · simpa using h.symm

theorem submit_count_success_echo_witness :
    (⟨"ok", ⟨"A", "B", "C", "D", "E", (3.5 : ℚ)⟩⟩ : SubmitOk) =
      ⟨"ok", ⟨"A", "B", "C", "D", "E", (3.5 : ℚ)⟩⟩ :=
  submit_count_success_echo cfgOK credOK (remoteOk [])
    ⟨"A", "B", "C", "D", "E", (3.5 : ℚ)⟩ none "2024-01-15"
    ⟨"ok", ⟨"A", "B", "C", "D", "E", (3.5 : ℚ)⟩⟩ rfl

/-- C3 counterexample: the claim says each returned name is the *trimmed*
first-column value, but on remote rows `[[" Widget "]]` the code returns the
raw first cell `" Widget "`, not its trim `"Widget"`. -/
theorem get_items_untrimmed_counterexample :
    get_items cfgOK credOK (remoteOk [[" Widget "]]) = ⟨[" Widget "]⟩ ∧
    pyStrip " Widget " = "Widget" ∧
    get_items cfgOK credOK (remoteOk [[" Widget "]]) ≠ ⟨["Widget"]⟩ := by
  decide

/-- C3 amended: `/items` returns the *raw* (untrimmed) first-column values of
the remote rows, in order, discarding rows that are empty or whose first cell
is empty or whitespace-only; trimming is used only for the blank test, not
applied to the returned names. -/
theorem get_items_filter_untrimmed (cfg : Config) (env : CredEnv)
    (remote : Remote) (rows : List (List String))
    (hsvc : get_sheets_service cfg env = .ok ())
    (hread : remote.readRange cfg.SHEET_ID ITEM_MASTER_RANGE = .ok rows) :
    get_items cfg env remote =
      ⟨(rows.filter fun row =>
          decide (row ≠ []) && decide (pyStrip (row.headD "") ≠ "")).map
        fun row => row.headD ""⟩ := by
  unfold get_items
  rw [hsvc]
  dsimp only
  rw [hread]
  exact congrArg ItemsResponse.mk (filterMap_head_eq rows)

theorem get_items_filter_untrimmed_witness :
    get_items cfgOK credOK (remoteOk [["Widget"], [" "], [""], ["Gadget"]]) =
      ⟨["Widget", "Gadget"]⟩ :=
  Eq.trans
    (get_items_filter_untrimmed cfgOK credOK
      (remoteOk [["Widget"], [" "], [""], ["Gadget"]])
      [["Widget"], [" "], [""], ["Gadget"]] rfl rfl)
    (by decide)

/-- C4: `/items` never raises past its own boundary — whenever credential
resolution fails or the remote range read fails, it returns `{"items": []}`. -/
theorem get_items_soft_fail (cfg : Config) (env : CredEnv) (remote : Remote)
    (h : (∃ e, get_sheets_service cfg env = .error e) ∨
         (∃ e, remote.readRange cfg.SHEET_ID ITEM_MASTER_RANGE = .error e)) :
    get_items cfg env remote = ⟨[]⟩ := by
  unfold get_items
  rcases h with ⟨e, he⟩ | ⟨e, he⟩
  · rw [he]
  · rw [he]
    cases hs : get_sheets_service cfg env <;> rfl

theorem get_items_soft_fail_witness :
    get_items ⟨none, none, none, none⟩ credOK (remoteOk []) = ⟨[]⟩ ∧
    get_items cfgOK credOK remoteReadFail = ⟨[]⟩ :=
  ⟨get_items_soft_fail ⟨none, none, none, none⟩ credOK (remoteOk [])
      (Or.inl ⟨"SHEET_ID env var is not set", rfl⟩),
   get_items_soft_fail cfgOK credOK remoteReadFail (Or.inr ⟨"boom", rfl⟩)⟩

/-- C5 counterexample: the claim lists four failure conditions and says
resolution fails exactly when one of them holds; but the code also fails when
the configured key file exists and is malformed (`from_service_account_file`
raises, src/stock_api.py:80-82), and when `build(...)` raises
(src/stock_api.py:87), with none of the four conditions holding. -/
theorem get_sheets_service_failure_iff_counterexample :
    ((∃ e, get_sheets_service cfgFileOnly credBadFile = .error e) ∧
      ¬ (truthy cfgFileOnly.SHEET_ID = false
         ∨ (truthy cfgFileOnly.SHEET_ID = true
              ∧ truthy cfgFileOnly.SERVICE_ACCOUNT_JSON = false
              ∧ truthy cfgFileOnly.SERVICE_FILE = false)
         ∨ (truthy cfgFileOnly.SHEET_ID = true
              ∧ truthy cfgFileOnly.SERVICE_ACCOUNT_JSON = true
              ∧ credBadFile.jsonLoadErr
                  (cfgFileOnly.SERVICE_ACCOUNT_JSON.getD "") ≠ none)
         ∨ (truthy cfgFileOnly.SHEET_ID = true
              ∧ truthy cfgFileOnly.SERVICE_ACCOUNT_JSON = false
              ∧ truthy cfgFileOnly.SERVICE_FILE = true
              ∧ credBadFile.fileExists
                  (saPath credBadFile (cfgFileOnly.SERVICE_FILE.getD ""))
                    = false))) ∧
    ((∃ e, get_sheets_service cfgOK credBadBuild = .error e) ∧
      ¬ (truthy cfgOK.SHEET_ID = false
         ∨ (truthy cfgOK.SHEET_ID = true
              ∧ truthy cfgOK.SERVICE_ACCOUNT_JSON = false
              ∧ truthy cfgOK.SERVICE_FILE = false)
         ∨ (truthy cfgOK.SHEET_ID = true
              ∧ truthy cfgOK.SERVICE_ACCOUNT_JSON = true
              ∧ credBadBuild.jsonLoadErr
                  (cfgOK.SERVICE_ACCOUNT_JSON.getD "") ≠ none)
         ∨ (truthy cfgOK.SHEET_ID = true
              ∧ truthy cfgOK.SERVICE_ACCOUNT_JSON = false
              ∧ truthy cfgOK.SERVICE_FILE = true
              ∧ credBadBuild.fileExists
                  (saPath credBadBuild (cfgOK.SERVICE_FILE.getD ""))
                    = false))) :=
  ⟨⟨⟨"Invalid key file", rfl⟩, by decide⟩,
   ⟨⟨"build failed", rfl⟩, by decide⟩⟩

/-- C5 amended: credential resolution fails exactly when `SHEET_ID` is not
set, when neither credential source is configured, when the inline credential
text fails to load, when (with no inline credential) the configured key-file
path does not exist, when the existing key file fails to load as a valid
service-account credential, or when constructing the API client (`build`)
fails after credentials resolve; and the inline JSON credential is
preferred — when it is present the key-file setting is never consulted. -/
theorem get_sheets_service_failure_iff (cfg : Config) (env : CredEnv) :
    ((∃ e, get_sheets_service cfg env = .error e) ↔
      (truthy cfg.SHEET_ID = false
       ∨ (truthy cfg.SHEET_ID = true ∧ truthy cfg.SERVICE_ACCOUNT_JSON = false
            ∧ truthy cfg.SERVICE_FILE = false)
       ∨ (truthy cfg.SHEET_ID = true ∧ truthy cfg.SERVICE_ACCOUNT_JSON = true
            ∧ env.jsonLoadErr (cfg.SERVICE_ACCOUNT_JSON.getD "") ≠ none)
       ∨ (truthy cfg.SHEET_ID = true ∧ truthy cfg.SERVICE_ACCOUNT_JSON = false
            ∧ truthy cfg.SERVICE_FILE = true
            ∧ env.fileExists (saPath env (cfg.SERVICE_FILE.getD "")) = false)
       ∨ (truthy cfg.SHEET_ID = true ∧ truthy cfg.SERVICE_ACCOUNT_JSON = false
            ∧ truthy cfg.SERVICE_FILE = true
            ∧ env.fileExists (saPath env (cfg.SERVICE_FILE.getD "")) = true
            ∧ env.fileLoadErr (saPath env (cfg.SERVICE_FILE.getD "")) ≠ none)
       ∨ (truthy cfg.SHEET_ID = true ∧ env.buildErr ≠ none
            ∧ ((truthy cfg.SERVICE_ACCOUNT_JSON = true
                 ∧ env.jsonLoadErr (cfg.SERVICE_ACCOUNT_JSON.getD "") = none)
               ∨ (truthy cfg.SERVICE_ACCOUNT_JSON = false
                 ∧ truthy cfg.SERVICE_FILE = true
                 ∧ env.fileExists (saPath env (cfg.SERVICE_FILE.getD "")) = true
                 ∧ env.fileLoadErr (saPath env (cfg.SERVICE_FILE.getD ""))
                     = none)))))
    ∧ (truthy cfg.SERVICE_ACCOUNT_JSON = true →
        ∀ f, get_sheets_service { cfg with SERVICE_FILE := f } env =
          get_sheets_service cfg env) := by
  constructor
  · unfold get_sheets_service
    by_cases h1 : truthy cfg.SHEET_ID <;>
    by_cases h2 : truthy cfg.SERVICE_ACCOUNT_JSON <;>
    by_cases h3 : truthy cfg.SERVICE_FILE <;>
    by_cases h5 : env.fileExists (saPath env (cfg.SERVICE_FILE.getD "")) <;>
    cases hj : env.jsonLoadErr (cfg.SERVICE_ACCOUNT_JSON.getD "") <;>
    cases hf : env.fileLoadErr (saPath env (cfg.SERVICE_FILE.getD "")) <;>
    cases hb : env.buildErr <;>
      simp [h1, h2, h3, h5, hj, hf, hb]
  · intro hj f
    unfold get_sheets_service
    simp [hj]

theorem get_sheets_service_failure_iff_witness :
    ∃ e, get_sheets_service ⟨none, none, none, none⟩ credOK = .error e :=
  (get_sheets_service_failure_iff ⟨none, none, none, none⟩ credOK).1.mpr
    (Or.inl (by decide))

end StockApi
